import Mathlib

/-!
Verification of the zod-backend HTTP service (src/server/server.ts).

The server exposes four interesting routes:
  GET  /random-person, /random-address, /random-login : fetch JSON from the
       RandomUser API, validate with RandomUserApiResponseSchema, shape a result;
  POST /users : validate the request body with UserSchema.

We shallowly embed the JSON data model, the two zod schemas with their
error-collection semantics, and each route handler as a pure function from the
already-fetched upstream JSON (resp. the parsed request body) to the pair
(HTTP status, response body).  Network and JSON-parse failures of the fetch are
outside the model; every claim below concerns behaviour after a JSON value has
been obtained.
-/

/-- JSON values, as produced by JSON.parse (object keys already resolved;
numbers modelled as rationals, which faithfully represents every claim-relevant
distinction, in particular integer vs non-integer). -/
inductive Json where
  | null : Json
  | bool (b : Bool) : Json
  | num (q : ℚ) : Json
  | str (s : String) : Json
  | arr (elems : List Json) : Json
  | obj (fields : List (String × Json)) : Json

/-- A step of a zod issue path: an object key or an array index. -/
inductive JKey where
  | key (s : String) : JKey
  | idx (n : Nat) : JKey
  deriving DecidableEq

/-- A zod validation issue: path to the violated field, issue code, message.
(The real ZodIssue carries further code-specific metadata, e.g.
expected/received for invalid_type and unionErrors for invalid_union; none of
it is a dot-joined path and no claim depends on it, so it is omitted.) -/
structure Issue where
  path : List JKey
  code : String
  message : String
  deriving DecidableEq

/-- Object key lookup; JS semantics (for objects coming out of JSON.parse a
duplicate key resolves to the last occurrence). -/
def lookupKey (fs : List (String × Json)) (k : String) : Option Json :=
  fs.foldl (fun acc f => if f.1 == k then some f.2 else acc) none

/-- The zod "received" type name of a present JSON value
(typeof-based, with arrays distinguished, as zod does). -/
def received : Json → String
  | .null => "null"
  | .bool _ => "boolean"
  | .num _ => "number"
  | .str _ => "string"
  | .arr _ => "array"
  | .obj _ => "object"

/-- Combine two validation results, concatenating the issue lists when both
fail — this is the zod object-parse behaviour of checking every field and
collecting all resulting issues instead of stopping at the first failure. -/
def zcomb {α β : Type} :
    Except (List Issue) α → Except (List Issue) β → Except (List Issue) (α × β)
  | .ok a, .ok b => .ok (a, b)
  | .ok _, .error e => .error e
  | .error e, .ok _ => .error e
  | .error e1, .error e2 => .error (e1 ++ e2)

/-- Map over a successful validation result. -/
def emap {α β : Type} (f : α → β) : Except (List Issue) α → Except (List Issue) β
  | .ok a => .ok (f a)
  | .error e => .error e

/-- The issues of a validation result (empty when it succeeded). -/
def errsOf {α : Type} : Except (List Issue) α → List Issue
  | .ok _ => []
  | .error e => e

/-! ### RandomUserApiResponseSchema (server.ts lines 9-27) -/

/-- location.postcode: z.union([z.string(), z.number()]). -/
inductive StrOrNum where
  | str (s : String) : StrOrNum
  | num (q : ℚ) : StrOrNum
  deriving DecidableEq

structure PName where
  first : String
  last : String
  deriving DecidableEq

structure PLocation where
  country : String
  city : String
  postcode : StrOrNum
  deriving DecidableEq

structure PLogin where
  username : String
  deriving DecidableEq

structure PRegistered where
  date : String
  deriving DecidableEq

structure Person where
  name : PName
  location : PLocation
  login : PLogin
  registered : PRegistered
  deriving DecidableEq

structure ApiResponse where
  results : List Person
  deriving DecidableEq

/-- z.string() at a given path, applied to a possibly missing field.
A missing field yields the zod "Required" issue. -/
def parseStr (path : List JKey) : Option Json → Except (List Issue) String
  | none => .error [⟨path, "invalid_type", "Required"⟩]
  | some (.str s) => .ok s
  | some v => .error [⟨path, "invalid_type", "Expected string, received " ++ received v⟩]

/-- z.union([z.string(), z.number()]) for postcode.  When both union branches
fail, zod reports a single invalid_union issue at the field path with the
default message "Invalid input" (the nested unionErrors are omitted here). -/
def parsePostcode (path : List JKey) : Option Json → Except (List Issue) StrOrNum
  | some (.str s) => .ok (.str s)
  | some (.num q) => .ok (.num q)
  | _ => .error [⟨path, "invalid_union", "Invalid input"⟩]

/-- name: z.object({first: z.string(), last: z.string()}). -/
def parsePName (path : List JKey) : Option Json → Except (List Issue) PName
  | none => .error [⟨path, "invalid_type", "Required"⟩]
  | some (.obj fs) =>
      emap (fun p => ⟨p.1, p.2⟩)
        (zcomb (parseStr (path ++ [.key "first"]) (lookupKey fs "first"))
               (parseStr (path ++ [.key "last"]) (lookupKey fs "last")))
  | some v => .error [⟨path, "invalid_type", "Expected object, received " ++ received v⟩]

/-- location: z.object({country, city: z.string(), postcode: union}). -/
def parsePLocation (path : List JKey) : Option Json → Except (List Issue) PLocation
  | none => .error [⟨path, "invalid_type", "Required"⟩]
  | some (.obj fs) =>
      emap (fun p => ⟨p.1.1, p.1.2, p.2⟩)
        (zcomb (zcomb (parseStr (path ++ [.key "country"]) (lookupKey fs "country"))
                      (parseStr (path ++ [.key "city"]) (lookupKey fs "city")))
               (parsePostcode (path ++ [.key "postcode"]) (lookupKey fs "postcode")))
  | some v => .error [⟨path, "invalid_type", "Expected object, received " ++ received v⟩]

/-- login: z.object({username: z.string()}). -/
def parsePLogin (path : List JKey) : Option Json → Except (List Issue) PLogin
  | none => .error [⟨path, "invalid_type", "Required"⟩]
  | some (.obj fs) =>
      emap (fun u => ⟨u⟩) (parseStr (path ++ [.key "username"]) (lookupKey fs "username"))
  | some v => .error [⟨path, "invalid_type", "Expected object, received " ++ received v⟩]

/-- registered: z.object({date: z.string()}). -/
def parsePRegistered (path : List JKey) : Option Json → Except (List Issue) PRegistered
  | none => .error [⟨path, "invalid_type", "Required"⟩]
  | some (.obj fs) =>
      emap (fun d => ⟨d⟩) (parseStr (path ++ [.key "date"]) (lookupKey fs "date"))
  | some v => .error [⟨path, "invalid_type", "Expected object, received " ++ received v⟩]

/-- One element of the results array (fields validated in schema-definition
order: name, location, login, registered; all issues collected). -/
def parsePerson (path : List JKey) : Json → Except (List Issue) Person
  | .obj fs =>
      emap (fun p => ⟨p.1.1, p.1.2, p.2.1, p.2.2⟩)
        (zcomb (zcomb (parsePName (path ++ [.key "name"]) (lookupKey fs "name"))
                      (parsePLocation (path ++ [.key "location"]) (lookupKey fs "location")))
               (zcomb (parsePLogin (path ++ [.key "login"]) (lookupKey fs "login"))
                      (parsePRegistered (path ++ [.key "registered"]) (lookupKey fs "registered"))))
  | v => .error [⟨path, "invalid_type", "Expected object, received " ++ received v⟩]

/-- z.array element-wise validation with index-carrying paths, all issues
collected in index order. -/
def parseResultsAux (i : Nat) : List Json → Except (List Issue) (List Person)
  | [] => .ok []
  | x :: xs =>
      emap (fun p => p.1 :: p.2)
        (zcomb (parsePerson [.key "results", .idx i] x) (parseResultsAux (i + 1) xs))

/-- RandomUserApiResponseSchema.parse: the whole upstream body. -/
def zodParseResponse : Json → Except (List Issue) ApiResponse
  | .obj fs =>
      match lookupKey fs "results" with
      | none => .error [⟨[.key "results"], "invalid_type", "Required"⟩]
      | some (.arr xs) => emap (fun ps => ⟨ps⟩) (parseResultsAux 0 xs)
      | some v => .error [⟨[.key "results"], "invalid_type", "Expected array, received " ++ received v⟩]
  | v => .error [⟨[], "invalid_type", "Expected object, received " ++ received v⟩]

/-! ### UserSchema (server.ts lines 29-33) -/

/-- Characters admitted anywhere in the local part of the zod email regex:
alphanumerics, underscore, apostrophe (code 39), plus, hyphen, dot
(ASCII classes, case-insensitive). -/
def isLocalChar (c : Char) : Bool :=
  c.isAlphanum || c == '_' || c == Char.ofNat 39 || c == '+' || c == '-' || c == '.'

/-- Characters admitted as the final character of the local part
(no dot, no apostrophe). -/
def isLocalEndChar (c : Char) : Bool :=
  c.isAlphanum || c == '_' || c == '+' || c == '-'

/-- No two consecutive dots anywhere in the string
(the negative lookahead of the zod email regex). -/
def noDoubleDot : List Char → Bool
  | c1 :: c2 :: rest => !(c1 == '.' && c2 == '.') && noDoubleDot (c2 :: rest)
  | _ => true

/-- Split at the first at-sign, returning (local chars, domain chars). -/
def splitLocalDomain : List Char → Option (List Char × List Char)
  | [] => none
  | c :: cs =>
      if c == '@' then some ([], cs)
      else (splitLocalDomain cs).map (fun p => (c :: p.1, p.2))

/-- Split a char list on a separator (all groups, preserving empties). -/
def splitOnChar (sep : Char) : List Char → List (List Char)
  | [] => [[]]
  | c :: cs =>
      let r := splitOnChar sep cs
      if c == sep then [] :: r
      else
        match r with
        | [] => [[c]]
        | g :: gs => (c :: g) :: gs

/-- One domain label before a dot: leading alphanumeric, then alphanumerics
or hyphens. -/
def labelOk : List Char → Bool
  | [] => false
  | c :: rest => c.isAlphanum && rest.all (fun d => d.isAlphanum || d == '-')

/-- The final domain component: at least two letters. -/
def tldOk (cs : List Char) : Bool :=
  decide (2 ≤ cs.length) && cs.all Char.isAlpha

/-- Domain part of the zod email regex: one or more labels each followed by a
dot, then the top-level component. -/
def domainOk (cs : List Char) : Bool :=
  match splitOnChar '.' cs with
  | [] => false
  | [_] => false
  | parts =>
      parts.dropLast.all labelOk &&
      (match parts.getLast? with
       | some t => tldOk t
       | none => false)

/-- Local part: nonempty, every character from the local class, final
character from the restricted class. -/
def localOk (cs : List Char) : Bool :=
  match cs.getLast? with
  | none => false
  | some lastc => cs.all isLocalChar && isLocalEndChar lastc

/-- The zod v3 email check
(regex ^(?!\.)(?!.*\.\.)([A-Z0-9_ apostrophe +\-\.]*)[A-Z0-9_+\-]@([A-Z0-9][A-Z0-9\-]*\.)+[A-Z]\x7b2,\x7d$ with the i flag),
transliterated: no leading dot, no double dot, a local part over the allowed
class not ending in dot or apostrophe, one at-sign, and a dotted domain whose
final component is at least two letters. -/
def zodEmailCheck (s : String) : Bool :=
  let cs := s.toList
  let noLeadDot :=
    match cs with
    | c :: _ => !(c == '.')
    | [] => true
  match splitLocalDomain cs with
  | none => false
  | some p => noLeadDot && noDoubleDot cs && localOk p.1 && domainOk p.2

/-- String.prototype.toLowerCase as applied by z.string().toLowerCase().
Char.toLower lowercases exactly the ASCII range; every claim-relevant input is
ASCII. -/
def jsToLower (s : String) : String :=
  String.mk (s.data.map Char.toLower)

/-- Validated output of UserSchema.parse (age is a JS number, kept rational;
after validation it is integral). -/
structure UserOut where
  name : String
  age : ℚ
  email : String
  deriving DecidableEq

/-- name: z.string().min(3, "Name must be at least 3 characters")
.max(12, "Name must be at most 12 characters").  For a string value both
length checks run and every failing check contributes an issue. -/
def parseUserName : Option Json → Except (List Issue) String
  | none => .error [⟨[.key "name"], "invalid_type", "Required"⟩]
  | some (.str s) =>
      let issues :=
        (if s.length < 3 then [⟨[.key "name"], "too_small", "Name must be at least 3 characters"⟩] else [])
        ++ (if 12 < s.length then [⟨[.key "name"], "too_big", "Name must be at most 12 characters"⟩] else [])
      if issues.isEmpty then .ok s else .error issues
  | some v => .error [⟨[.key "name"], "invalid_type", "Expected string, received " ++ received v⟩]

/-- age: z.number().int().min(18, "Age must be at least 18")
.max(100, "Age must be at most 100").optional().default(28).
A missing field takes the default 28 without running the checks; for a
numeric value all three checks run and every failing check contributes an
issue. -/
def parseUserAge : Option Json → Except (List Issue) ℚ
  | none => .ok 28
  | some (.num q) =>
      let issues :=
        (if q.den ≠ 1 then [⟨[.key "age"], "invalid_type", "Expected integer, received float"⟩] else [])
        ++ (if q < 18 then [⟨[.key "age"], "too_small", "Age must be at least 18"⟩] else [])
        ++ (if 100 < q then [⟨[.key "age"], "too_big", "Age must be at most 100"⟩] else [])
      if issues.isEmpty then .ok q else .error issues
  | some v => .error [⟨[.key "age"], "invalid_type", "Expected number, received " ++ received v⟩]

/-- email: z.string().email("Must be a valid email").toLowerCase().
The email check runs on the submitted string; the toLowerCase transform
overwrites the value afterwards. -/
def parseUserEmail : Option Json → Except (List Issue) String
  | none => .error [⟨[.key "email"], "invalid_type", "Required"⟩]
  | some (.str s) =>
      if zodEmailCheck s then .ok (jsToLower s)
      else .error [⟨[.key "email"], "invalid_string", "Must be a valid email"⟩]
  | some v => .error [⟨[.key "email"], "invalid_type", "Expected string, received " ++ received v⟩]

/-- UserSchema.parse of the request body; fields validated in
schema-definition order (name, age, email), all issues collected. -/
def zodParseUser : Json → Except (List Issue) UserOut
  | .obj fs =>
      emap (fun p => ⟨p.1.1, p.1.2, p.2⟩)
        (zcomb (zcomb (parseUserName (lookupKey fs "name"))
                      (parseUserAge (lookupKey fs "age")))
               (parseUserEmail (lookupKey fs "email")))
  | v => .error [⟨[], "invalid_type", "Expected object, received " ++ received v⟩]

/-- The per-field issue lists of a UserSchema parse, concatenated in
schema-definition order. -/
def errsUser (fs : List (String × Json)) : List Issue :=
  errsOf (parseUserName (lookupKey fs "name"))
  ++ errsOf (parseUserAge (lookupKey fs "age"))
  ++ errsOf (parseUserEmail (lookupKey fs "email"))

/-! ### Calendar arithmetic and the ECMAScript date model

random-login runs new Date(person.registered.date) followed by
toISOString().split(T)[0].  We model the environment-independent part of the
ECMAScript Date Time String Format: YYYY-MM-DD (interpreted as UTC) and
YYYY-MM-DDTHH:MM[:SS[.sss]] with an explicit Z or +-HH:MM offset.  A date-time
without offset is interpreted by JS in the local time zone and is therefore
outside this model, as are the non-ISO fallback formats; on those the model
parser returns none, the modelling of toISOString raising on an Invalid Date
(which the handler turns into its generic error branch). -/

/-- Days since 1970-01-01 of a civil date (proleptic Gregorian).  Out-of-range
days roll over arithmetically, exactly as ECMAScript MakeDay does
(e.g. 2019-02-29 denotes 2019-03-01). -/
def daysFromCivil (y m d : Int) : Int :=
  let y2 := if m ≤ 2 then y - 1 else y
  let era := Int.fdiv y2 400
  let yoe := y2 - era * 400
  let mp := Int.fmod (m + 9) 12
  let doy := Int.fdiv (153 * mp + 2) 5 + d - 1
  let doe := yoe * 365 + Int.fdiv yoe 4 - Int.fdiv yoe 100 + doy
  era * 146097 + doe - 719468

/-- Civil date (year, month, day) of a day count since 1970-01-01. -/
def civilFromDays (z0 : Int) : Int × Int × Int :=
  let z := z0 + 719468
  let era := Int.fdiv z 146097
  let doe := z - era * 146097
  let yoe := Int.fdiv (doe - Int.fdiv doe 1460 + Int.fdiv doe 36524 - Int.fdiv doe 146096) 365
  let y := yoe + era * 400
  let doy := doe - (365 * yoe + Int.fdiv yoe 4 - Int.fdiv yoe 100)
  let mp := Int.fdiv (5 * doy + 2) 153
  let d := doy - Int.fdiv (153 * mp + 2) 5 + 1
  let m := if mp < 10 then mp + 3 else mp - 9
  (if m ≤ 2 then y + 1 else y, m, d)

/-- Read exactly n decimal digits, returning their value and the rest. -/
def readNDigitsAux : Nat → Nat → List Char → Option (Nat × List Char)
  | 0, acc, cs => some (acc, cs)
  | n + 1, acc, c :: cs =>
      if c.isDigit then readNDigitsAux n (acc * 10 + (c.toNat - 48)) cs else none
  | _ + 1, _, [] => none

def readNDigits (n : Nat) (cs : List Char) : Option (Nat × List Char) :=
  readNDigitsAux n 0 cs

/-- Time-zone designator at the end of a date-time: Z, or a signed HH:MM
offset; the result is the offset in minutes east of UTC. -/
def parseOffset : List Char → Option Int
  | ['Z'] => some 0
  | c :: cs =>
      if c == '+' || c == '-' then
        match readNDigits 2 cs with
        | some (oh, ':' :: cs2) =>
            match readNDigits 2 cs2 with
            | some (om, []) =>
                if oh ≤ 23 ∧ om ≤ 59 then
                  some ((if c == '+' then (1 : Int) else -1) * (oh * 60 + om))
                else none
            | _ => none
        | _ => none
      else none
  | [] => none

/-- Epoch milliseconds of civil date + time-of-day + offset (MakeDate). -/
def dateMs (y mo d hh mm ss ms : Nat) (off : Int) : Int :=
  daysFromCivil y mo d * 86400000
    + hh * 3600000 + mm * 60000 + ss * 1000 + ms - off * 60000

/-- The HH:MM[:SS[.sss]] + offset tail of an ISO date-time. -/
def parseTime : List Char → Option (Nat × Nat × Nat × Nat × Int)
  | cs =>
    match readNDigits 2 cs with
    | some (hh, ':' :: r1) =>
        (match readNDigits 2 r1 with
         | some (mm, r2) =>
             let finish := fun (ss ms : Nat) (r : List Char) =>
               (parseOffset r).bind (fun off =>
                 if (hh ≤ 23 ∨ (hh = 24 ∧ mm = 0 ∧ ss = 0 ∧ ms = 0)) ∧ mm ≤ 59 ∧ ss ≤ 59
                 then some (hh, mm, ss, ms, off) else none)
             match r2 with
             | ':' :: r3 =>
                 (match readNDigits 2 r3 with
                  | some (ss, '.' :: r4) =>
                      (match readNDigits 3 r4 with
                       | some (ms, r5) => finish ss ms r5
                       | none => none)
                  | some (ss, r4) => finish ss 0 r4
                  | none => none)
             | _ => finish 0 0 r2
         | none => none)
    | _ => none

/-- Model of new Date(s).getTime() on the UTC subset of the ECMAScript Date
Time String Format (see the section comment); none stands for an Invalid
Date. -/
def jsDateParse (s : String) : Option Int :=
  match readNDigits 4 s.toList with
  | some (y, '-' :: r1) =>
      (match readNDigits 2 r1 with
       | some (mo, '-' :: r2) =>
           (match readNDigits 2 r2 with
            | some (d, rest) =>
                if 1 ≤ mo ∧ mo ≤ 12 ∧ 1 ≤ d ∧ d ≤ 31 then
                  match rest with
                  | [] => some (dateMs y mo d 0 0 0 0 0)
                  | 'T' :: tr =>
                      (parseTime tr).map (fun t =>
                        dateMs y mo d t.1 t.2.1 t.2.2.1 t.2.2.2.1 t.2.2.2.2)
                  | _ => none
                else none
            | none => none)
       | _ => none)
  | _ => none

/-- A natural number printed in decimal, left-padded with zeros. -/
def padNat (width n : Nat) : String :=
  let s := toString n
  String.mk (List.replicate (width - s.length) '0') ++ s

/-- The YYYY-MM-DD rendering of a day count since the epoch, as produced by
Date.prototype.toISOString (including its expanded-year forms). -/
def isoDateOfDay (day : Int) : String :=
  let c := civilFromDays day
  let ystr :=
    if c.1 < 0 then "-" ++ padNat 6 (-c.1).toNat
    else if 9999 < c.1 then "+" ++ padNat 6 c.1.toNat
    else padNat 4 c.1.toNat
  ystr ++ "-" ++ padNat 2 c.2.1.toNat ++ "-" ++ padNat 2 c.2.2.toNat

/-- toISOString(t).split(T)[0]: the date part of the ISO rendering of an
epoch-milliseconds instant. -/
def toISODatePart (t : Int) : String :=
  isoDateOfDay (Int.fdiv t 86400000)

/-! ### Route handlers (pure functions of the upstream/request JSON)

Each handler models the corresponding app.get/app.post callback from the point
where a JSON value is in hand, returning (HTTP status, response body). -/

/-- Serialization of a path step inside error.errors
(JSON.stringify renders object keys as strings and array indices as
numbers). -/
def jkeyJson : JKey → Json
  | .key s => .str s
  | .idx n => .num n

/-- Serialization of one raw zod issue as it appears in the details array of
the random-* 500 responses (res.json({..., details: error.errors})). -/
def issueJson (i : Issue) : Json :=
  .obj [("code", .str i.code), ("path", .arr (i.path.map jkeyJson)),
        ("message", .str i.message)]

/-- The 500 body of the random-* routes on a ZodError. -/
def invalidResponseBody (issues : List Issue) : Json :=
  .obj [("error", .str "Invalid response from RandomUser API"),
        ("details", .arr (issues.map issueJson))]

/-- The 500 body of the random-* routes on any non-ZodError failure. -/
def genericBody (what : String) : Json :=
  .obj [("error", .str ("Failed to fetch random " ++ what))]

/-- String(location.postcode) via Number.prototype.toString for numeric
postcodes (exact for integral values; every claim-relevant postcode is
integral). -/
def jsNumToString (q : ℚ) : String :=
  if q.den = 1 then toString q.num else toString q

def strOrNumToString : StrOrNum → String
  | .str s => s
  | .num q => jsNumToString q

/-- GET /random-person (server.ts lines 41-66).  An empty results array
passes validation, after which person is undefined and person.name.first
raises a TypeError, caught by the non-ZodError branch. -/
def randomPersonHandler (data : Json) : Nat × Json :=
  match zodParseResponse data with
  | .error issues => (500, invalidResponseBody issues)
  | .ok resp =>
      match resp.results with
      | [] => (500, genericBody "person")
      | p :: _ =>
          (200, .obj [("fullName", .str (p.name.first ++ " " ++ p.name.last)),
                      ("country", .str p.location.country)])

/-- GET /random-address (server.ts lines 89-114). -/
def randomAddressHandler (data : Json) : Nat × Json :=
  match zodParseResponse data with
  | .error issues => (500, invalidResponseBody issues)
  | .ok resp =>
      match resp.results with
      | [] => (500, genericBody "address")
      | p :: _ =>
          (200, .obj [("city", .str p.location.city),
                      ("postcode", .str (strOrNumToString p.location.postcode))])

/-- GET /random-login (server.ts lines 116-145).  A registered.date that JS
cannot parse makes toISOString raise a RangeError, caught by the non-ZodError
branch. -/
def randomLoginHandler (data : Json) : Nat × Json :=
  match zodParseResponse data with
  | .error issues => (500, invalidResponseBody issues)
  | .ok resp =>
      match resp.results with
      | [] => (500, genericBody "login")
      | p :: _ =>
          match jsDateParse p.registered.date with
          | none => (500, genericBody "login")
          | some t =>
              (200, .obj [("username", .str p.login.username),
                          ("registeredDate", .str (toISODatePart t)),
                          ("summary", .str (p.login.username ++ " (registered on "
                                            ++ toISODatePart t ++ ")"))])

/-- One entry of the POST /users 400 details array:
{field: err.path.join(dot), message: err.message}. -/
def dotJoin (path : List JKey) : String :=
  String.intercalate "."
    (path.map (fun k => match k with | .key s => s | .idx n => toString n))

def detailJson (i : Issue) : Json :=
  .obj [("field", .str (dotJoin i.path)), ("message", .str i.message)]

/-- POST /users (server.ts lines 69-86). -/
def usersHandler (body : Json) : Nat × Json :=
  match zodParseUser body with
  | .ok u => (201, .obj [("name", .str u.name), ("age", .num u.age),
                         ("email", .str u.email)])
  | .error issues =>
      (400, .obj [("error", .str "Validation failed"),
                  ("details", .arr (issues.map detailJson))])

/-! ### Auxiliary observations on JSON values -/

/-- Key lookup on a JSON value (none on non-objects). -/
def jsonGetKey (j : Json) (k : String) : Option Json :=
  match j with
  | .obj fs => lookupKey fs k
  | _ => none

mutual
/-- Does the string s occur as a string value anywhere inside j
(also inspecting object keys)? -/
def jsonContainsStr (s : String) : Json → Bool
  | .str t => t == s
  | .arr xs => jsonListContainsStr s xs
  | .obj fs => jsonFieldsContainsStr s fs
  | _ => false
def jsonListContainsStr (s : String) : List Json → Bool
  | [] => false
  | x :: xs => jsonContainsStr s x || jsonListContainsStr s xs
def jsonFieldsContainsStr (s : String) : List (String × Json) → Bool
  | [] => false
  | f :: fs => (f.1 == s) || jsonContainsStr s f.2 || jsonFieldsContainsStr s fs
end

/-- The upstream object lacks a results key (non-objects lack every key). -/
def lacksResults : Json → Prop
  | .obj fs => lookupKey fs "results" = none
  | _ => True

/-! ### Concrete inputs used by the witnesses and counterexamples -/

/-- The upstream record of spec section 8:
results[0] = Ada Lovelace, UK/London, numeric postcode 12345, username ada,
registered 2020-05-01T00:00:00Z. -/
def adaRecordJson : Json :=
  .obj [("name", .obj [("first", .str "Ada"), ("last", .str "Lovelace")]),
        ("location", .obj [("country", .str "UK"), ("city", .str "London"),
                           ("postcode", .num 12345)]),
        ("login", .obj [("username", .str "ada")]),
        ("registered", .obj [("date", .str "2020-05-01T00:00:00Z")])]

def adaUpstream : Json :=
  .obj [("results", .arr [adaRecordJson])]

/-- The same Person after validation. -/
def adaPerson : Person :=
  ⟨⟨"Ada", "Lovelace"⟩, ⟨"UK", "London", .num 12345⟩, ⟨"ada"⟩,
   ⟨"2020-05-01T00:00:00Z"⟩⟩

/-- A second upstream response whose results array has the same first element
and an extra second record. -/
def bobRecordJson : Json :=
  .obj [("name", .obj [("first", .str "Bob"), ("last", .str "Byrne")]),
        ("location", .obj [("country", .str "IE"), ("city", .str "Cork"),
                           ("postcode", .str "T12")]),
        ("login", .obj [("username", .str "bob")]),
        ("registered", .obj [("date", .str "1999-12-31")])]

def adaUpstreamTwo : Json :=
  .obj [("results", .arr [adaRecordJson, bobRecordJson])]

def bobPerson : Person :=
  ⟨⟨"Bob", "Byrne"⟩, ⟨"IE", "Cork", .str "T12"⟩, ⟨"bob"⟩, ⟨"1999-12-31"⟩⟩

/-- An upstream response whose only deviation is a missing
results[0].location.postcode. -/
def noPostcodeUpstream : Json :=
  .obj [("results", .arr [
    .obj [("name", .obj [("first", .str "Ada"), ("last", .str "Lovelace")]),
          ("location", .obj [("country", .str "UK"), ("city", .str "London")]),
          ("login", .obj [("username", .str "ada")]),
          ("registered", .obj [("date", .str "2020-05-01T00:00:00Z")])]])]

/-- The upstream response {results: []}. -/
def emptyResultsUpstream : Json :=
  .obj [("results", .arr [])]

/-- A /users body with a too-short name and a non-email email. -/
def shortNameBadEmailBody : List (String × Json) :=
  [("name", .str "ab"), ("email", .str "bad")]

/-- A /users body with a valid name and a non-email email. -/
def badEmailBody : List (String × Json) :=
  [("name", .str "Ada"), ("email", .str "nope")]

/-- A /users body with a mixed-case email. -/
def fooBarBody : List (String × Json) :=
  [("name", .str "Foo"), ("email", .str "Foo@BAR.com")]

/-- A /users body with a too-short name and a valid email. -/
def shortNameBody : List (String × Json) :=
  [("name", .str "ab"), ("email", .str "a@b.co")]

/-- A valid /users body without an age field. -/
def noAgeBody : List (String × Json) :=
  [("name", .str "Ada"), ("email", .str "a@b.co")]

/-! ## Helper lemmas -/

theorem parseUserName_tooShort {n : String} (h : n.length < 3) :
    parseUserName (some (Json.str n)) =
      Except.error [⟨[JKey.key "name"], "too_small", "Name must be at least 3 characters"⟩] := by
  have h2 : ¬ 12 < n.length := by omega
  simp [parseUserName, h, h2]

theorem parseUserName_tooLong {n : String} (h : 12 < n.length) :
    parseUserName (some (Json.str n)) =
      Except.error [⟨[JKey.key "name"], "too_big", "Name must be at most 12 characters"⟩] := by
  have h2 : ¬ n.length < 3 := by omega
  simp [parseUserName, h, h2]

theorem parseUserName_inRange {n : String} (h3 : 3 ≤ n.length) (h12 : n.length ≤ 12) :
    parseUserName (some (Json.str n)) = Except.ok n := by
  have a : ¬ n.length < 3 := by omega
  have b : ¬ 12 < n.length := by omega
  simp [parseUserName, a, b]

theorem parseUserEmail_invalid {e : String} (h : zodEmailCheck e = false) :
    parseUserEmail (some (Json.str e)) =
      Except.error [⟨[JKey.key "email"], "invalid_string", "Must be a valid email"⟩] := by
  simp [parseUserEmail, h]

theorem parseUserEmail_valid {e : String} (h : zodEmailCheck e = true) :
    parseUserEmail (some (Json.str e)) = Except.ok (jsToLower e) := by
  simp [parseUserEmail, h]

/-- When any field of the user body fails, UserSchema.parse fails with the
per-field issue lists concatenated in schema order — the zod semantics of
checking every field and collecting every error. -/
theorem zodParseUser_eq_error (fs : List (String × Json)) (h : errsUser fs ≠ []) :
    zodParseUser (Json.obj fs) = Except.error (errsUser fs) := by
  rcases hn : parseUserName (lookupKey fs "name") with en | vn <;>
  rcases ha : parseUserAge (lookupKey fs "age") with ea | va <;>
  rcases he : parseUserEmail (lookupKey fs "email") with ee | ve <;>
  simp_all [errsUser, errsOf, zodParseUser, zcomb, emap]

/-- When every field of the user body validates, UserSchema.parse returns the
validated record. -/
theorem zodParseUser_eq_ok (fs : List (String × Json)) (n : String) (a : ℚ) (e : String)
    (hn : parseUserName (lookupKey fs "name") = Except.ok n)
    (ha : parseUserAge (lookupKey fs "age") = Except.ok a)
    (he : parseUserEmail (lookupKey fs "email") = Except.ok e) :
    zodParseUser (Json.obj fs) = Except.ok ⟨n, a, e⟩ := by
  simp [zodParseUser, hn, ha, he, zcomb, emap]

/-- A present age value only ever validates to itself. -/
theorem parseUserAge_ok_val {v : Json} {q : ℚ}
    (h : parseUserAge (some v) = Except.ok q) : v = Json.num q := by
  cases v with
  | num q2 =>
      by_cases h1 : q2.den = 1 <;> by_cases h2 : q2 < 18 <;> by_cases h3 : 100 < q2
      all_goals simp [parseUserAge, h1, h2, h3] at h
      all_goals simp [h]
  | null => simp [parseUserAge] at h
  | bool b => simp [parseUserAge] at h
  | str s => simp [parseUserAge] at h
  | arr xs => simp [parseUserAge] at h
  | obj fs => simp [parseUserAge] at h

/-- A numeric age validates exactly when it is integral and between 18 and
100 inclusive. -/
theorem parseUserAge_ok_iff (q : ℚ) :
    parseUserAge (some (Json.num q)) = Except.ok q ↔
      q.den = 1 ∧ 18 ≤ q ∧ q ≤ 100 := by
  constructor
  · intro h
    by_cases h1 : q.den = 1
    · by_cases h2 : q < 18
      · exact absurd h (by simp [parseUserAge, h1, h2])
      · by_cases h3 : 100 < q
        · exact absurd h (by simp [parseUserAge, h1, h2, h3])
        · exact ⟨h1, not_lt.mp h2, not_lt.mp h3⟩
    · exact absurd h (by simp [parseUserAge, h1])
  · rintro ⟨h1, h2, h3⟩
    have h2n : ¬ q < 18 := not_lt.mpr h2
    have h3n : ¬ 100 < q := not_lt.mpr h3
    simp [parseUserAge, h1, h2n, h3n]

/-! ## Claims -/

/-- C1 (counterexample): the claim says the 500 details entries of the
random-* routes identify the violated field by a dot-joined key sequence.  On
the concrete upstream response missing results[0].location.postcode, the
violated field's dot-joined path is "results.0.location.postcode", yet that
string occurs nowhere in the response body: the raw zod issues are returned,
whose path is an array of keys, not a dot-joined string. -/
theorem C1_details_not_dotJoined :
    randomPersonHandler noPostcodeUpstream =
      (500, invalidResponseBody
        [⟨[JKey.key "results", JKey.idx 0, JKey.key "location", JKey.key "postcode"],
          "invalid_union", "Invalid input"⟩]) ∧
    dotJoin [JKey.key "results", JKey.idx 0, JKey.key "location", JKey.key "postcode"]
      = "results.0.location.postcode" ∧
    jsonContainsStr "results.0.location.postcode"
      (randomPersonHandler noPostcodeUpstream).2 = false :=
  ⟨rfl, by decide, by decide⟩

/-- C1 (amended): for every upstream response failing validation, each of the
random-person, random-address and random-login routes responds 500 with
error "Invalid response from RandomUser API" and one details entry per
violated field, each entry giving the field path as an array of keys
(serialized by issueJson); the dot-joined rendering is not used by these
routes. -/
theorem C1_details_path_is_key_array (j : Json) (issues : List Issue)
    (h : zodParseResponse j = Except.error issues) :
    randomPersonHandler j = (500, invalidResponseBody issues) ∧
    randomAddressHandler j = (500, invalidResponseBody issues) ∧
    randomLoginHandler j = (500, invalidResponseBody issues) ∧
    ∀ i ∈ issues, issueJson i =
      Json.obj [("code", Json.str i.code), ("path", Json.arr (i.path.map jkeyJson)),
                ("message", Json.str i.message)] := by
  refine ⟨?_, ?_, ?_, fun i _ => rfl⟩ <;>
    simp [randomPersonHandler, randomAddressHandler, randomLoginHandler, h]

/-- C1 (witness for the amended theorem, at the missing-postcode response). -/
theorem C1_witness :
    randomPersonHandler noPostcodeUpstream =
      (500, invalidResponseBody
        [⟨[JKey.key "results", JKey.idx 0, JKey.key "location", JKey.key "postcode"],
          "invalid_union", "Invalid input"⟩]) ∧
    randomAddressHandler noPostcodeUpstream =
      (500, invalidResponseBody
        [⟨[JKey.key "results", JKey.idx 0, JKey.key "location", JKey.key "postcode"],
          "invalid_union", "Invalid input"⟩]) ∧
    randomLoginHandler noPostcodeUpstream =
      (500, invalidResponseBody
        [⟨[JKey.key "results", JKey.idx 0, JKey.key "location", JKey.key "postcode"],
          "invalid_union", "Invalid input"⟩]) ∧
    ∀ i ∈ [(⟨[JKey.key "results", JKey.idx 0, JKey.key "location", JKey.key "postcode"],
            "invalid_union", "Invalid input"⟩ : Issue)], issueJson i =
      Json.obj [("code", Json.str i.code), ("path", Json.arr (i.path.map jkeyJson)),
                ("message", Json.str i.message)] :=
  C1_details_path_is_key_array noPostcodeUpstream
    [⟨[JKey.key "results", JKey.idx 0, JKey.key "location", JKey.key "postcode"],
      "invalid_union", "Invalid input"⟩] rfl

/-- C2: the upstream body {results: []} passes schema validation (an empty
array satisfies z.array), and each random-* route then takes the generic
(non-ZodError) 500 branch — results[0] is undefined, the subsequent property
access throws a TypeError — so the body is the route's generic message and
carries no details field. -/
theorem C2_emptyResults_generic :
    zodParseResponse emptyResultsUpstream = Except.ok ⟨[]⟩ ∧
    randomPersonHandler emptyResultsUpstream = (500, genericBody "person") ∧
    randomAddressHandler emptyResultsUpstream = (500, genericBody "address") ∧
    randomLoginHandler emptyResultsUpstream = (500, genericBody "login") ∧
    jsonGetKey (genericBody "person") "details" = none ∧
    jsonGetKey (genericBody "address") "details" = none ∧
    jsonGetKey (genericBody "login") "details" = none :=
  ⟨rfl, rfl, rfl, rfl, rfl, rfl, rfl⟩

/-- C3: a POST /users body violating several UserInput constraints (here: a
name shorter than 3 characters and an invalid email, with arbitrary remaining
fields) gets a 400 whose details array is the concatenation of the per-field
error lists — all fields checked, all errors collected — and in particular
contains both the name entry and the email entry, not only the first. -/
theorem C3_collects_all_field_errors (fs : List (String × Json)) (n e : String)
    (hn : lookupKey fs "name" = some (Json.str n)) (hlen : n.length < 3)
    (he : lookupKey fs "email" = some (Json.str e)) (hem : zodEmailCheck e = false) :
    usersHandler (Json.obj fs) =
      (400, Json.obj [("error", Json.str "Validation failed"),
                      ("details", Json.arr ((errsUser fs).map detailJson))]) ∧
    detailJson ⟨[JKey.key "name"], "too_small", "Name must be at least 3 characters"⟩
      ∈ (errsUser fs).map detailJson ∧
    detailJson ⟨[JKey.key "email"], "invalid_string", "Must be a valid email"⟩
      ∈ (errsUser fs).map detailJson := by
  have hname := parseUserName_tooShort hlen
  have hemail := parseUserEmail_invalid hem
  have hne : errsUser fs ≠ [] := by
    simp [errsUser, hn, hname, errsOf]
  have hz := zodParseUser_eq_error fs hne
  refine ⟨by simp [usersHandler, hz], ?_, ?_⟩ <;>
    exact List.mem_map_of_mem _ (by simp [errsUser, hn, he, hname, hemail, errsOf])

/-- C3 (witness): body {name: "ab", email: "bad"}. -/
theorem C3_witness :
    usersHandler (Json.obj shortNameBadEmailBody) =
      (400, Json.obj [("error", Json.str "Validation failed"),
                      ("details", Json.arr ((errsUser shortNameBadEmailBody).map detailJson))]) ∧
    detailJson ⟨[JKey.key "name"], "too_small", "Name must be at least 3 characters"⟩
      ∈ (errsUser shortNameBadEmailBody).map detailJson ∧
    detailJson ⟨[JKey.key "email"], "invalid_string", "Must be a valid email"⟩
      ∈ (errsUser shortNameBadEmailBody).map detailJson :=
  C3_collects_all_field_errors shortNameBadEmailBody "ab" "bad" rfl (by decide) rfl (by decide)

/-- C4: for every validated Person whose registered.date JS-parses as a
date, random-login responds 200 with registeredDate the YYYY-MM-DD date part
of the UTC instant and summary = username ++ " (registered on " ++ date ++ ")";
the rendering discards any time-of-day within the UTC day; and on the
spec's concrete record (username ada, registered 2020-05-01T00:00:00Z) the
response is exactly as the claim states. -/
theorem C4_login_formats_date :
    (∀ (j : Json) (resp : ApiResponse) (p : Person) (rest : List Person) (t : Int),
       zodParseResponse j = Except.ok resp → resp.results = p :: rest →
       jsDateParse p.registered.date = some t →
       randomLoginHandler j =
         (200, Json.obj [("username", Json.str p.login.username),
                         ("registeredDate", Json.str (toISODatePart t)),
                         ("summary", Json.str (p.login.username ++ " (registered on "
                                               ++ toISODatePart t ++ ")"))])) ∧
    (∀ day x : Int, 0 ≤ x → x < 86400000 →
       toISODatePart (day * 86400000 + x) = toISODatePart (day * 86400000)) ∧
    randomLoginHandler adaUpstream =
      (200, Json.obj [("username", Json.str "ada"),
                      ("registeredDate", Json.str "2020-05-01"),
                      ("summary", Json.str "ada (registered on 2020-05-01)")]) := by
  refine ⟨?_, ?_, rfl⟩
  · intro j resp p rest t h1 h2 h3
    simp [randomLoginHandler, h1, h2, h3]
  · intro day x h0 hx
    unfold toISODatePart
    congr 1
    rw [Int.fdiv_eq_ediv _ (by norm_num), Int.fdiv_eq_ediv _ (by norm_num)]
    omega

/-- C4 (witness): the universal part applied at the concrete upstream record
(epoch instant 1588291200000 = 2020-05-01T00:00:00Z). -/
theorem C4_witness :
    randomLoginHandler adaUpstream =
      (200, Json.obj [("username", Json.str "ada"),
                      ("registeredDate", Json.str (toISODatePart 1588291200000)),
                      ("summary", Json.str ("ada" ++ " (registered on "
                                            ++ toISODatePart 1588291200000 ++ ")"))]) :=
  C4_login_formats_date.1 adaUpstream ⟨[adaPerson]⟩ adaPerson [] 1588291200000
    rfl rfl (by decide)

/-- C5: a POST /users body with a valid name and email and no age field gets
status 201 and the returned object has age 28; and a present age field
validates exactly when it is a numeric integer between 18 and 100
inclusive. -/
theorem C5_age_default_and_range :
    (∀ (fs : List (String × Json)) (n e : String),
       lookupKey fs "name" = some (Json.str n) → 3 ≤ n.length → n.length ≤ 12 →
       lookupKey fs "age" = none →
       lookupKey fs "email" = some (Json.str e) → zodEmailCheck e = true →
       usersHandler (Json.obj fs) =
         (201, Json.obj [("name", Json.str n), ("age", Json.num 28),
                         ("email", Json.str (jsToLower e))])) ∧
    (∀ v : Json, (∃ q : ℚ, parseUserAge (some v) = Except.ok q) ↔
       ∃ q : ℚ, v = Json.num q ∧ q.den = 1 ∧ 18 ≤ q ∧ q ≤ 100) := by
  constructor
  · intro fs n e hn h3 h12 ha he hem
    have h1 := parseUserName_inRange h3 h12
    have h2 := parseUserEmail_valid hem
    have hz := zodParseUser_eq_ok fs n 28 (jsToLower e)
      (by rw [hn]; exact h1) (by rw [ha]; rfl) (by rw [he]; exact h2)
    simp [usersHandler, hz]
  · intro v
    constructor
    · rintro ⟨q, hq⟩
      have hv := parseUserAge_ok_val hq
      subst hv
      obtain ⟨h1, h2, h3⟩ := (parseUserAge_ok_iff q).mp hq
      exact ⟨q, rfl, h1, h2, h3⟩
    · rintro ⟨q, rfl, h1, h2, h3⟩
      exact ⟨q, (parseUserAge_ok_iff q).mpr ⟨h1, h2, h3⟩⟩

/-- C5 (witness): body {name: "Ada", email: "a@b.co"} and age value 28. -/
theorem C5_witness :
    usersHandler (Json.obj noAgeBody) =
      (201, Json.obj [("name", Json.str "Ada"), ("age", Json.num 28),
                      ("email", Json.str (jsToLower "a@b.co"))]) ∧
    (∃ q : ℚ, parseUserAge (some (Json.num 28)) = Except.ok q) :=
  ⟨C5_age_default_and_range.1 noAgeBody "Ada" "a@b.co" rfl (by decide) (by decide)
      rfl rfl (by decide),
   (C5_age_default_and_range.2 (Json.num 28)).mpr ⟨28, rfl, by decide, by norm_num, by norm_num⟩⟩

/-- C6: a POST /users body whose email string fails the email syntax check
gets a 400 whose details contain the entry {field: "email",
message: "Must be a valid email"}; and on success the returned email is the
submitted email lowercased — in particular "Foo@BAR.com" comes back as
"foo@bar.com". -/
theorem C6_email_message_and_lowercase :
    (∀ (fs : List (String × Json)) (e : String),
       lookupKey fs "email" = some (Json.str e) → zodEmailCheck e = false →
       usersHandler (Json.obj fs) =
         (400, Json.obj [("error", Json.str "Validation failed"),
                         ("details", Json.arr ((errsUser fs).map detailJson))]) ∧
       Json.obj [("field", Json.str "email"), ("message", Json.str "Must be a valid email")]
         ∈ (errsUser fs).map detailJson) ∧
    (∀ (fs : List (String × Json)) (n : String),
       lookupKey fs "name" = some (Json.str n) → 3 ≤ n.length → n.length ≤ 12 →
       lookupKey fs "age" = none →
       lookupKey fs "email" = some (Json.str "Foo@BAR.com") →
       usersHandler (Json.obj fs) =
         (201, Json.obj [("name", Json.str n), ("age", Json.num 28),
                         ("email", Json.str "foo@bar.com")])) := by
  constructor
  · intro fs e he hem
    have hemail := parseUserEmail_invalid hem
    have hne : errsUser fs ≠ [] := by
      simp [errsUser, he, hemail, errsOf]
    have hz := zodParseUser_eq_error fs hne
    refine ⟨by simp [usersHandler, hz], ?_⟩
    have hm : (⟨[JKey.key "email"], "invalid_string", "Must be a valid email"⟩ : Issue)
        ∈ errsUser fs := by
      simp [errsUser, he, hemail, errsOf]
    exact List.mem_map_of_mem _ hm
  · intro fs n hn h3 h12 ha he
    have h1 := parseUserName_inRange h3 h12
    have hemail : parseUserEmail (lookupKey fs "email") = Except.ok "foo@bar.com" := by
      rw [he]
      have : zodEmailCheck "Foo@BAR.com" = true := by decide
      rw [parseUserEmail_valid this]
      rfl
    have hz := zodParseUser_eq_ok fs n 28 "foo@bar.com"
      (by rw [hn]; exact h1) (by rw [ha]; rfl) hemail
    simp [usersHandler, hz]

/-- C6 (witness): bodies {name: "Ada", email: "nope"} and
{name: "Foo", email: "Foo@BAR.com"}. -/
theorem C6_witness :
    (usersHandler (Json.obj badEmailBody) =
       (400, Json.obj [("error", Json.str "Validation failed"),
                       ("details", Json.arr ((errsUser badEmailBody).map detailJson))]) ∧
     Json.obj [("field", Json.str "email"), ("message", Json.str "Must be a valid email")]
       ∈ (errsUser badEmailBody).map detailJson) ∧
    usersHandler (Json.obj fooBarBody) =
      (201, Json.obj [("name", Json.str "Foo"), ("age", Json.num 28),
                      ("email", Json.str "foo@bar.com")]) :=
  ⟨C6_email_message_and_lowercase.1 badEmailBody "nope" rfl (by decide),
   C6_email_message_and_lowercase.2 fooBarBody "Foo" rfl (by decide) (by decide) rfl rfl⟩

/-- C7: a POST /users body whose name is a string of length outside [3,12]
gets a 400 whose details contain a {field: "name", message: ...} entry, with
the exact message "Name must be at least 3 characters" below the range and
"Name must be at most 12 characters" above it. -/
theorem C7_name_length_messages (fs : List (String × Json)) (n : String)
    (hn : lookupKey fs "name" = some (Json.str n))
    (hout : n.length < 3 ∨ 12 < n.length) :
    usersHandler (Json.obj fs) =
      (400, Json.obj [("error", Json.str "Validation failed"),
                      ("details", Json.arr ((errsUser fs).map detailJson))]) ∧
    (n.length < 3 →
      Json.obj [("field", Json.str "name"),
                ("message", Json.str "Name must be at least 3 characters")]
        ∈ (errsUser fs).map detailJson) ∧
    (12 < n.length →
      Json.obj [("field", Json.str "name"),
                ("message", Json.str "Name must be at most 12 characters")]
        ∈ (errsUser fs).map detailJson) := by
  rcases hout with hs | hl
  · have hname := parseUserName_tooShort hs
    have hne : errsUser fs ≠ [] := by simp [errsUser, hn, hname, errsOf]
    have hz := zodParseUser_eq_error fs hne
    refine ⟨by simp [usersHandler, hz], fun _ => ?_, fun hc => absurd hc (by omega)⟩
    have hm : (⟨[JKey.key "name"], "too_small", "Name must be at least 3 characters"⟩ : Issue)
        ∈ errsUser fs := by
      simp [errsUser, hn, hname, errsOf]
    exact List.mem_map_of_mem detailJson hm
  · have hname := parseUserName_tooLong hl
    have hne : errsUser fs ≠ [] := by simp [errsUser, hn, hname, errsOf]
    have hz := zodParseUser_eq_error fs hne
    refine ⟨by simp [usersHandler, hz], fun hc => absurd hc (by omega), fun _ => ?_⟩
    have hm : (⟨[JKey.key "name"], "too_big", "Name must be at most 12 characters"⟩ : Issue)
        ∈ errsUser fs := by
      simp [errsUser, hn, hname, errsOf]
    exact List.mem_map_of_mem detailJson hm

/-- C7 (witness): body {name: "ab", email: "a@b.co"}. -/
theorem C7_witness :
    usersHandler (Json.obj shortNameBody) =
      (400, Json.obj [("error", Json.str "Validation failed"),
                      ("details", Json.arr ((errsUser shortNameBody).map detailJson))]) ∧
    ("ab".length < 3 →
      Json.obj [("field", Json.str "name"),
                ("message", Json.str "Name must be at least 3 characters")]
        ∈ (errsUser shortNameBody).map detailJson) ∧
    (12 < "ab".length →
      Json.obj [("field", Json.str "name"),
                ("message", Json.str "Name must be at most 12 characters")]
        ∈ (errsUser shortNameBody).map detailJson) :=
  C7_name_length_messages shortNameBody "ab" rfl (Or.inl (by decide))

/-- C8: for every validated Person, random-address responds 200 with
city = location.city and postcode = String(location.postcode); the coercion
returns string postcodes unchanged and renders integral numeric postcodes in
decimal, and on the spec's concrete record the numeric postcode 12345 comes
back as the string "12345". -/
theorem C8_address_stringifies_postcode :
    (∀ (j : Json) (resp : ApiResponse) (p : Person) (rest : List Person),
       zodParseResponse j = Except.ok resp → resp.results = p :: rest →
       randomAddressHandler j =
         (200, Json.obj [("city", Json.str p.location.city),
                         ("postcode", Json.str (strOrNumToString p.location.postcode))])) ∧
    (∀ s : String, strOrNumToString (StrOrNum.str s) = s) ∧
    (∀ q : ℚ, q.den = 1 → strOrNumToString (StrOrNum.num q) = toString q.num) ∧
    randomAddressHandler adaUpstream =
      (200, Json.obj [("city", Json.str "London"), ("postcode", Json.str "12345")]) := by
  refine ⟨?_, fun s => rfl, ?_, rfl⟩
  · intro j resp p rest h1 h2
    simp [randomAddressHandler, h1, h2]
  · intro q h
    simp [strOrNumToString, jsNumToString, h]

/-- C8 (witness): the universal parts applied at the concrete record with
numeric postcode 12345. -/
theorem C8_witness :
    randomAddressHandler adaUpstream =
      (200, Json.obj [("city", Json.str "London"),
                      ("postcode", Json.str (strOrNumToString (StrOrNum.num 12345)))]) ∧
    strOrNumToString (StrOrNum.num 12345) = toString (12345 : ℤ) :=
  ⟨C8_address_stringifies_postcode.1 adaUpstream ⟨[adaPerson]⟩ adaPerson [] rfl rfl,
   C8_address_stringifies_postcode.2.2.1 12345 (by decide)⟩

/-- C9: an upstream JSON value with no results key (including non-objects)
fails schema validation, so each of the three random-* routes responds 500
with the validation-failure body carrying error "Invalid response from
RandomUser API" — not the generic fetch-failure body. -/
theorem C9_missing_results_is_validation_failure (j : Json) (h : lacksResults j) :
    ∃ issues, zodParseResponse j = Except.error issues ∧
      randomPersonHandler j = (500, invalidResponseBody issues) ∧
      randomAddressHandler j = (500, invalidResponseBody issues) ∧
      randomLoginHandler j = (500, invalidResponseBody issues) := by
  obtain ⟨issues, hz⟩ : ∃ issues, zodParseResponse j = Except.error issues := by
    cases j with
    | obj fs =>
        have h2 : lookupKey fs "results" = none := h
        exact ⟨[⟨[JKey.key "results"], "invalid_type", "Required"⟩],
          by simp [zodParseResponse, h2]⟩
    | null => exact ⟨_, rfl⟩
    | bool b => exact ⟨_, rfl⟩
    | num q => exact ⟨_, rfl⟩
    | str s => exact ⟨_, rfl⟩
    | arr xs => exact ⟨_, rfl⟩
  exact ⟨issues, hz, by simp [randomPersonHandler, hz],
    by simp [randomAddressHandler, hz], by simp [randomLoginHandler, hz]⟩

/-- C9 (witness): the object {foo: null}, which has no results key. -/
theorem C9_witness :
    ∃ issues, zodParseResponse (Json.obj [("foo", Json.null)]) = Except.error issues ∧
      randomPersonHandler (Json.obj [("foo", Json.null)]) = (500, invalidResponseBody issues) ∧
      randomAddressHandler (Json.obj [("foo", Json.null)]) = (500, invalidResponseBody issues) ∧
      randomLoginHandler (Json.obj [("foo", Json.null)]) = (500, invalidResponseBody issues) :=
  C9_missing_results_is_validation_failure (Json.obj [("foo", Json.null)]) rfl

/-- C10: two upstream responses that both validate and whose results arrays
have the same first element (if any) produce identical responses on all three
random-* routes — only results[0] influences the output, later elements are
ignored. -/
theorem C10_only_first_result_used (j1 j2 : Json) (r1 r2 : ApiResponse)
    (h1 : zodParseResponse j1 = Except.ok r1) (h2 : zodParseResponse j2 = Except.ok r2)
    (hh : r1.results.head? = r2.results.head?) :
    randomPersonHandler j1 = randomPersonHandler j2 ∧
    randomAddressHandler j1 = randomAddressHandler j2 ∧
    randomLoginHandler j1 = randomLoginHandler j2 := by
  cases c1 : r1.results with
  | nil =>
      cases c2 : r2.results with
      | nil =>
          simp [randomPersonHandler, randomAddressHandler, randomLoginHandler, h1, h2, c1, c2]
      | cons p2 rest2 => rw [c1, c2] at hh; simp at hh
  | cons p1 rest1 =>
      cases c2 : r2.results with
      | nil => rw [c1, c2] at hh; simp at hh
      | cons p2 rest2 =>
          rw [c1, c2] at hh
          simp only [List.head?_cons, Option.some.injEq] at hh
          subst hh
          simp [randomPersonHandler, randomAddressHandler, randomLoginHandler, h1, h2, c1, c2]

/-- C10 (witness): the one-record response and the two-record response that
agree on results[0] give identical outputs on all three routes. -/
theorem C10_witness :
    randomPersonHandler adaUpstream = randomPersonHandler adaUpstreamTwo ∧
    randomAddressHandler adaUpstream = randomAddressHandler adaUpstreamTwo ∧
    randomLoginHandler adaUpstream = randomLoginHandler adaUpstreamTwo :=
  C10_only_first_result_used adaUpstream adaUpstreamTwo ⟨[adaPerson]⟩ ⟨[adaPerson, bobPerson]⟩
    rfl rfl rfl
